import Mathlib

/-!
Verification of the Anime/Character CRUD API
(`src/main.py`, `src/SimpleMicroservices/models/characters.py`,
`src/SimpleMicroservices/models/anime.py`).

Shallow embedding conventions:
* `UUID` values are modelled as `String` (only identity/equality of the
  identifier matters to the behaviour).
* `datetime` timestamps are modelled as `Nat` (an abstract instant).  A
  create evaluates TWO separate `datetime.utcnow` default factories (one
  for `created_at`, one for `updated_at`) during validation; the two
  readings are passed in as `now1` and `now2` and the model imposes no
  relation between them.  The server-side `uuid4()` minting in
  `AnimeRead`'s `default_factory` is passed in as a `freshId` argument.
* A Python `dict` is modelled as an association list kept in insertion
  order, with `d[k] = v` replacing in place when the key is present and
  appending otherwise, exactly like a Python dict.
* Pydantic's `model_dump(exclude_unset=True)` semantics are modelled by
  wrapping every updatable field of an update payload in `Option`: `none`
  means the field was absent from the request body, `some v` means it was
  explicitly present with value `v`.  Every field whose Python annotation
  is `Optional[...]` admits an explicit null, so its payload type is
  `Option (Option ...)` — `some none` is the present-but-null case.  The
  one exception is `CharacterUpdate.gender`, annotated plain `str` in the
  source: an explicit null there is rejected by request validation (422,
  handler never runs), so it stays `Option String`.
* A `PATCH` merges the stored record's dump with the body's dump and then
  revalidates via `CharacterRead(**stored)` / `AnimeRead(**stored)`.  The
  merged dict is modelled by a `...Dump` structure in which a required
  field may hold null; revalidation (`validate...Read`) fails on such a
  null, which in FastAPI surfaces as an uncaught ValidationError — an
  HTTP 500 response with the store unchanged, since the assignment is
  never reached.
* Handlers that mutate a store take it and return the new store plus an
  `Except HTTPException` response; the `Nat` in a successful response is
  the route decorator's status code (201 for the `POST` creates, 200
  otherwise).
-/

/-- `models/characters.py` `CharacterBase`: the shape embedded inside an
anime's `characters` list (and, field-for-field, the `CharacterCreate`
payload). -/
structure CharacterBase where
  id : String
  name : String
  role : String
  «alias» : Option String
  gender : String
  ability : String
deriving Repr, DecidableEq

/-- `CharacterCreate` adds no fields to `CharacterBase`. -/
abbrev CharacterCreate := CharacterBase

/-- `models/characters.py` `CharacterRead`: `CharacterBase` plus the two
server timestamps. -/
structure CharacterRead where
  id : String
  name : String
  role : String
  «alias» : Option String
  gender : String
  ability : String
  created_at : Nat
  updated_at : Nat
deriving Repr, DecidableEq

/-- `models/characters.py` `CharacterUpdate`: the outer `Option` is
pydantic's set-vs-unset distinction surfaced by
`model_dump(exclude_unset=True)`.  `name`, `role`, `alias` and `ability`
are `Optional[str]` in the source, so each admits an explicit null
(`some none`).  `gender` is annotated plain `str` (with a sloppy `None`
default), so a present `gender` always carries a string. -/
structure CharacterUpdate where
  name : Option (Option String)
  role : Option (Option String)
  «alias» : Option (Option String)
  gender : Option String
  ability : Option (Option String)
deriving Repr, DecidableEq

/-- `models/anime.py` `AnimeBase` (= the `AnimeCreate` payload): no `id`
field — anime ids are always server-minted in `AnimeRead`. -/
structure AnimeBase where
  title : String
  genre : String
  seasons : String
  rating : Option String
  status : String
  streaming : String
  characters : List CharacterBase
deriving Repr, DecidableEq

/-- `AnimeCreate` adds no fields to `AnimeBase`. -/
abbrev AnimeCreate := AnimeBase

/-- `models/anime.py` `AnimeRead`: `AnimeBase` plus server id and
timestamps. -/
structure AnimeRead where
  id : String
  title : String
  genre : String
  seasons : String
  rating : Option String
  status : String
  streaming : String
  characters : List CharacterBase
  created_at : Nat
  updated_at : Nat
deriving Repr, DecidableEq

/-- `models/anime.py` `AnimeUpdate`: every field is `Optional[...]` in the
source, so each gets the double `Option` — outer set-vs-unset, inner the
explicitly-null case (including `characters`, whose `Optional[List[...]]`
admits an explicit null). -/
structure AnimeUpdate where
  title : Option (Option String)
  genre : Option (Option String)
  seasons : Option (Option String)
  rating : Option (Option String)
  status : Option (Option String)
  streaming : Option (Option String)
  characters : Option (Option (List CharacterBase))
deriving Repr, DecidableEq

/-- FastAPI's `HTTPException(status_code=..., detail=...)`. -/
structure HTTPException where
  status_code : Nat
  detail : String
deriving Repr, DecidableEq

/-- A Python runtime error surfaced while evaluating a handler body. -/
inductive PyError where
  | attributeError
deriving Repr, DecidableEq

/-! ### The in-memory "databases" of `main.py`

`animes: Dict[UUID, AnimeRead]` and `characters: Dict[UUID, CharacterRead]`,
modelled as insertion-ordered association lists. -/

abbrev CharStore := List (String × CharacterRead)
abbrev AnimeStore := List (String × AnimeRead)

/-- Python `k in d`. -/
def dictMem : List (String × α) → String → Bool
  | [], _ => false
  | kv :: rest, k => kv.1 == k || dictMem rest k

/-- Python `d[k]` (as an `Option` instead of `KeyError`). -/
def dictGet : List (String × α) → String → Option α
  | [], _ => none
  | kv :: rest, k => if kv.1 == k then some kv.2 else dictGet rest k

/-- Python `d[k] = v`: replace in place if present, else append. -/
def dictSet : List (String × α) → String → α → List (String × α)
  | [], k, v => [(k, v)]
  | kv :: rest, k, v => if kv.1 == k then (k, v) :: rest else kv :: dictSet rest k v

/-- Python `list(d.values())`. -/
def dictValues (d : List (String × α)) : List α := d.map Prod.snd

/-! ### Character endpoints (`main.py` lines 60–103) -/

/-- `CharacterRead(**character.model_dump())`: the dump carries no
timestamp keys, so the two `datetime.utcnow` default factories fire —
`now1` for `created_at`, `now2` for `updated_at` (two separate clock
readings). -/
def mkCharacterRead (character : CharacterCreate) (now1 now2 : Nat) :
    CharacterRead :=
  { id := character.id, name := character.name, role := character.role,
    «alias» := character.«alias», gender := character.gender,
    ability := character.ability, created_at := now1, updated_at := now2 }

/-- `POST /characters` (`create_character`). -/
def create_character (db : CharStore) (character : CharacterCreate)
    (now1 now2 : Nat) :
    CharStore × Except HTTPException (Nat × CharacterRead) :=
  if dictMem db character.id then
    (db, .error ⟨400, "Character with this ID already exists"⟩)
  else
    let record := mkCharacterRead character now1 now2
    (dictSet db character.id record, .ok (201, record))

/-- `GET /characters` (`list_characters`): the sequential filter chain of
the source, in source order. -/
def list_characters (db : CharStore)
    (name role «alias» gender ability : Option String) : List CharacterRead :=
  let results := dictValues db
  let results := match name with
    | none => results
    | some x => results.filter (fun a => a.name == x)
  let results := match role with
    | none => results
    | some x => results.filter (fun a => a.role == x)
  let results := match «alias» with
    | none => results
    | some x => results.filter (fun a => a.«alias» == some x)
  let results := match gender with
    | none => results
    | some x => results.filter (fun a => a.gender == x)
  let results := match ability with
    | none => results
    | some x => results.filter (fun a => a.ability == x)
  results

/-- `GET /characters/{character_id}` (`get_character`). -/
def get_character (db : CharStore) (character_id : String) :
    Except HTTPException (Nat × CharacterRead) :=
  match dictGet db character_id with
  | none => .error ⟨404, "character not found"⟩
  | some r => .ok (200, r)

/-- The dict `stored.update(update.model_dump(exclude_unset=True))` before
revalidation: a required `str` field (`name`, `role`, `ability`) may now
hold null. -/
structure CharacterDump where
  id : String
  name : Option String
  role : Option String
  «alias» : Option String
  gender : String
  ability : Option String
  created_at : Nat
  updated_at : Nat
deriving Repr, DecidableEq

/-- `stored.update(update.model_dump(exclude_unset=True))`: body-present
fields overwrite the dump entries (possibly with null); all other keys,
`id`, `created_at` and `updated_at` included, pass through. -/
def mergeCharacter (stored : CharacterRead) (update : CharacterUpdate) :
    CharacterDump :=
  { id := stored.id
    name := update.name.getD (some stored.name)
    role := update.role.getD (some stored.role)
    «alias» := update.«alias».getD stored.«alias»
    gender := update.gender.getD stored.gender
    ability := update.ability.getD (some stored.ability)
    created_at := stored.created_at
    updated_at := stored.updated_at }

/-- `CharacterRead(**stored)`: pydantic revalidation of the merged dict;
fails (ValidationError) when a required `str` field holds null. -/
def validateCharacterRead (d : CharacterDump) : Option CharacterRead :=
  match d.name, d.role, d.ability with
  | some nm, some rl, some ab =>
      some ⟨d.id, nm, rl, d.«alias», d.gender, ab, d.created_at, d.updated_at⟩
  | _, _, _ => none

/-- `PATCH /characters/{character_id}` (`update_character`); an uncaught
ValidationError from the revalidation surfaces as HTTP 500 with the store
unchanged (the assignment is never reached). -/
def update_character (db : CharStore) (character_id : String)
    (update : CharacterUpdate) :
    CharStore × Except HTTPException (Nat × CharacterRead) :=
  match dictGet db character_id with
  | none => (db, .error ⟨404, "Character not found"⟩)
  | some stored =>
      match validateCharacterRead (mergeCharacter stored update) with
      | some record => (dictSet db character_id record, .ok (200, record))
      | none => (db, .error ⟨500, "Internal Server Error"⟩)

/-! ### Anime endpoints (`main.py` lines 109–163) -/

/-- `AnimeRead(**anime.model_dump())`: `freshId` is the `uuid4` default
factory, `now1`/`now2` the two `datetime.utcnow` default factories. -/
def mkAnimeRead (anime : AnimeCreate) (freshId : String) (now1 now2 : Nat) :
    AnimeRead :=
  { id := freshId, title := anime.title, genre := anime.genre,
    seasons := anime.seasons, rating := anime.rating, status := anime.status,
    streaming := anime.streaming, characters := anime.characters,
    created_at := now1, updated_at := now2 }

/-- `POST /animes` (`create_anime`): no duplicate-id check. -/
def create_anime (db : AnimeStore) (anime : AnimeCreate) (freshId : String)
    (now1 now2 : Nat) : AnimeStore × Except HTTPException (Nat × AnimeRead) :=
  let anime_read := mkAnimeRead anime freshId now1 now2
  (dictSet db anime_read.id anime_read, .ok (201, anime_read))

/-- Python attribute lookup `p.addresses`: `AnimeRead` declares no such
field, so evaluating it raises `AttributeError`. -/
def AnimeRead.addresses (_ : AnimeRead) : Except PyError (List CharacterBase) :=
  .error .attributeError

/-- A list comprehension `[x for x in l if p(x)]` whose predicate may raise:
elements are tested left to right and the first raise aborts. -/
def filterME (p : α → Except PyError Bool) : List α → Except PyError (List α)
  | [] => .ok []
  | x :: xs =>
      match p x with
      | .error e => .error e
      | .ok b =>
          match filterME p xs with
          | .error e => .error e
          | .ok rest => .ok (if b then x :: rest else rest)

/-- The filter chain of `list_animes` up to and including the `role`
filter — everything before the defective `gender` branch. -/
def listAnimesBase (db : AnimeStore)
    (title genre seasons rating status streaming role : Option String) :
    List AnimeRead :=
  let results := dictValues db
  let results := match title with
    | none => results
    | some x => results.filter (fun p => p.title == x)
  let results := match genre with
    | none => results
    | some x => results.filter (fun p => p.genre == x)
  let results := match seasons with
    | none => results
    | some x => results.filter (fun p => p.seasons == x)
  let results := match rating with
    | none => results
    | some x => results.filter (fun p => p.rating == some x)
  let results := match status with
    | none => results
    | some x => results.filter (fun p => p.status == x)
  let results := match streaming with
    | none => results
    | some x => results.filter (fun p => p.streaming == x)
  let results := match role with
    | none => results
    | some x => results.filter (fun p => p.characters.any (fun char => char.role == x))
  results

/-- `GET /animes` (`list_animes`): the gender branch iterates
`p.addresses`, a field `AnimeRead` does not have. -/
def list_animes (db : AnimeStore)
    (title genre seasons rating status streaming role gender : Option String) :
    Except PyError (List AnimeRead) :=
  let results := listAnimesBase db title genre seasons rating status streaming role
  match gender with
  | none => .ok results
  | some x =>
      filterME (fun p => do
        let chars ← p.addresses
        pure (chars.any (fun char => char.gender == x))) results

/-- `GET /animes/{anime_id}` (`get_anime`). -/
def get_anime (db : AnimeStore) (anime_id : String) :
    Except HTTPException (Nat × AnimeRead) :=
  match dictGet db anime_id with
  | none => .error ⟨404, "Anime not found"⟩
  | some r => .ok (200, r)

/-- The dict `stored.update(update.model_dump(exclude_unset=True))` before
revalidation: any required field (`title`, `genre`, `seasons`, `status`,
`streaming`, `characters`) may now hold null. -/
structure AnimeDump where
  id : String
  title : Option String
  genre : Option String
  seasons : Option String
  rating : Option String
  status : Option String
  streaming : Option String
  characters : Option (List CharacterBase)
  created_at : Nat
  updated_at : Nat
deriving Repr, DecidableEq

/-- `stored.update(update.model_dump(exclude_unset=True))` for animes. -/
def mergeAnime (stored : AnimeRead) (update : AnimeUpdate) : AnimeDump :=
  { id := stored.id
    title := update.title.getD (some stored.title)
    genre := update.genre.getD (some stored.genre)
    seasons := update.seasons.getD (some stored.seasons)
    rating := update.rating.getD stored.rating
    status := update.status.getD (some stored.status)
    streaming := update.streaming.getD (some stored.streaming)
    characters := update.characters.getD (some stored.characters)
    created_at := stored.created_at
    updated_at := stored.updated_at }

/-- `AnimeRead(**stored)`: pydantic revalidation of the merged dict; fails
(ValidationError) when a required field — `title`, `genre`, `seasons`,
`status`, `streaming`, or the `List`-typed `characters` — holds null. -/
def validateAnimeRead (d : AnimeDump) : Option AnimeRead :=
  match d.title, d.genre, d.seasons, d.status, d.streaming, d.characters with
  | some t, some g, some se, some st, some sr, some cs =>
      some ⟨d.id, t, g, se, d.rating, st, sr, cs, d.created_at, d.updated_at⟩
  | _, _, _, _, _, _ => none

/-- `PATCH /animes/{anime_id}` (`update_anime`); an uncaught
ValidationError from the revalidation surfaces as HTTP 500 with the store
unchanged. -/
def update_anime (db : AnimeStore) (anime_id : String) (update : AnimeUpdate) :
    AnimeStore × Except HTTPException (Nat × AnimeRead) :=
  match dictGet db anime_id with
  | none => (db, .error ⟨404, "Anime not found"⟩)
  | some stored =>
      match validateAnimeRead (mergeAnime stored update) with
      | some record => (dictSet db anime_id record, .ok (200, record))
      | none => (db, .error ⟨500, "Internal Server Error"⟩)

/-! ### The whole server state and its request steps -/

/-- The two module-level stores of `main.py`. -/
structure ServerState where
  characters : CharStore
  animes : AnimeStore
deriving Repr, DecidableEq

/-- One HTTP request to any of the eight store endpoints.  `now1`/`now2`
and `freshId` arguments carry the nondeterministic clock/uuid readings. -/
inductive Op where
  | createChar (c : CharacterCreate) (now1 now2 : Nat)
  | listChars (name role «alias» gender ability : Option String)
  | getChar (id : String)
  | updateChar (id : String) (u : CharacterUpdate)
  | createAnime (a : AnimeCreate) (freshId : String) (now1 now2 : Nat)
  | listAnimes (title genre seasons rating status streaming role gender : Option String)
  | getAnime (id : String)
  | updateAnime (id : String) (u : AnimeUpdate)

/-- Effect of one request on the server state (responses discarded). -/
def step (s : ServerState) : Op → ServerState
  | .createChar c now1 now2 =>
      { s with characters := (create_character s.characters c now1 now2).1 }
  | .listChars _ _ _ _ _ => s
  | .getChar _ => s
  | .updateChar i u =>
      { s with characters := (update_character s.characters i u).1 }
  | .createAnime a fid now1 now2 =>
      { s with animes := (create_anime s.animes a fid now1 now2).1 }
  | .listAnimes _ _ _ _ _ _ _ _ => s
  | .getAnime _ => s
  | .updateAnime i u =>
      { s with animes := (update_anime s.animes i u).1 }

/-- The state reached from the empty stores after a request sequence. -/
def reach (ops : List Op) : ServerState :=
  ops.foldl step ⟨[], []⟩

/-- No key occurs twice in the store (Python dicts guarantee this). -/
def keysUniqueB : List (String × α) → Bool
  | [] => true
  | kv :: rest => !(dictMem rest kv.1) && keysUniqueB rest

/-- Spec-side restatement of the list filters: a record matches iff every
supplied filter equals the corresponding field exactly (an absent filter
imposes no constraint). -/
def matchesFilters (name role «alias» gender ability : Option String)
    (a : CharacterRead) : Bool :=
  (match name with | none => true | some x => a.name == x) &&
  (match role with | none => true | some x => a.role == x) &&
  (match «alias» with | none => true | some x => a.«alias» == some x) &&
  (match gender with | none => true | some x => a.gender == x) &&
  (match ability with | none => true | some x => a.ability == x)

/-- `before`/`after` lookup pair: a record present before an operation is
still present afterwards, with the same identifier. -/
def idKept (idOf : α → String) : Option α → Option α → Bool
  | none, _ => true
  | some _, none => false
  | some r, some r2 => idOf r2 == idOf r

/-- Store sanity: every entry's `id` field equals its dict key, and no key
occurs twice (so identifiers are unique within each store). -/
def invariantB (s : ServerState) : Bool :=
  s.characters.all (fun kv => kv.2.id == kv.1) &&
  keysUniqueB s.characters &&
  s.animes.all (fun kv => kv.2.id == kv.1) &&
  keysUniqueB s.animes

/-! ### Association-list (Python dict) lemmas -/

theorem dictGet_dictSet_self (d : List (String × α)) (k : String) (v : α) :
    dictGet (dictSet d k v) k = some v := by
  induction d with
  | nil => simp [dictSet, dictGet]
  | cons kv rest ih =>
      by_cases h : kv.1 = k
      · simp [dictSet, dictGet, h]
      · simp [dictSet, dictGet, h, ih]

theorem dictGet_dictSet_ne (d : List (String × α)) (k j : String) (v : α)
    (h : j ≠ k) : dictGet (dictSet d k v) j = dictGet d j := by
  have hkj : k ≠ j := Ne.symm h
  induction d with
  | nil => simp [dictSet, dictGet, hkj]
  | cons kv rest ih =>
      by_cases hk : kv.1 = k
      · subst hk
        simp [dictSet, dictGet, hkj]
      · simp [dictSet, dictGet, hk, ih]

theorem dictGet_eq_none_of_not_mem (d : List (String × α)) (k : String)
    (h : dictMem d k = false) : dictGet d k = none := by
  induction d with
  | nil => rfl
  | cons kv rest ih =>
      simp [dictMem] at h
      simp [dictGet, h.1, ih h.2]

theorem dictMem_dictSet (d : List (String × α)) (k j : String) (v : α) :
    dictMem (dictSet d k v) j = (dictMem d j || k == j) := by
  induction d with
  | nil => simp [dictSet, dictMem]
  | cons kv rest ih =>
      by_cases h : kv.1 = k
      · subst h
        simp [dictSet, dictMem]
        by_cases hj : kv.1 = j <;> simp [hj]
      · simp [dictSet, dictMem, h, ih, Bool.or_assoc]

theorem mem_dictSet (d : List (String × α)) (k : String) (v : α)
    (x : String × α) (hx : x ∈ dictSet d k v) : x ∈ d ∨ x = (k, v) := by
  induction d with
  | nil =>
      right
      simpa [dictSet] using hx
  | cons kv rest ih =>
      by_cases h : kv.1 = k
      · simp [dictSet, h] at hx
        rcases hx with h1 | h1
        · right; simp [h1]
        · left; exact List.mem_cons_of_mem _ h1
      · simp [dictSet, h] at hx
        rcases hx with h1 | h1
        · left; simp [h1]
        · rcases ih h1 with h2 | h2
          · left; exact List.mem_cons_of_mem _ h2
          · right; exact h2

theorem all_dictSet {p : String × α → Bool} (d : List (String × α))
    (k : String) (v : α) (hd : d.all p = true) (hv : p (k, v) = true) :
    (dictSet d k v).all p = true := by
  rw [List.all_eq_true] at hd ⊢
  intro x hx
  rcases mem_dictSet d k v x hx with h | h
  · exact hd x h
  · rw [h]; exact hv

theorem keysUnique_dictSet (d : List (String × α)) (k : String) (v : α)
    (h : keysUniqueB d = true) : keysUniqueB (dictSet d k v) = true := by
  induction d with
  | nil => simp [dictSet, keysUniqueB, dictMem]
  | cons kv rest ih =>
      simp [keysUniqueB] at h
      by_cases hk : kv.1 = k
      · subst hk
        simp [dictSet, keysUniqueB, h.1, h.2]
      · have hk2 : ¬ k = kv.1 := fun hh => hk hh.symm
        simp [dictSet, keysUniqueB, hk, dictMem_dictSet, h.1, ih h.2, hk2]

theorem mem_of_dictGet (d : List (String × α)) (k : String) (r : α)
    (h : dictGet d k = some r) : (k, r) ∈ d := by
  induction d with
  | nil => simp [dictGet] at h
  | cons kv rest ih =>
      by_cases hk : kv.1 = k
      · rw [dictGet, if_pos (by simp [hk])] at h
        obtain rfl : kv.2 = r := by simpa using h
        subst hk
        exact List.mem_cons_self _ _
      · rw [dictGet, if_neg (by simp [hk])] at h
        exact List.mem_cons_of_mem _ (ih h)

theorem filter_and_filter (p q : α → Bool) (l : List α) :
    (l.filter p).filter q = l.filter (fun a => p a && q a) := by
  induction l with
  | nil => rfl
  | cons x xs ih =>
      by_cases hp : p x <;> by_cases hq : q x <;>
        simp [List.filter_cons, hp, hq, ih]

/-! ### Merge and revalidation lemmas -/

theorem getD_some_eq_none (o : Option (Option α)) (a : α) :
    o.getD (some a) = none ↔ o = some none := by
  cases o with
  | none => simp
  | some x => cases x <;> simp

theorem validateCharacterRead_fields (d : CharacterDump) (r : CharacterRead)
    (h : validateCharacterRead d = some r) :
    r.id = d.id ∧ r.«alias» = d.«alias» ∧ r.gender = d.gender ∧
    r.created_at = d.created_at ∧ r.updated_at = d.updated_at ∧
    d.name = some r.name ∧ d.role = some r.role ∧ d.ability = some r.ability := by
  rcases hn : d.name with _ | nm <;>
    rcases hr : d.role with _ | rl <;>
    rcases ha : d.ability with _ | ab <;>
    simp [validateCharacterRead, hn, hr, ha] at h
  subst h
  exact ⟨rfl, rfl, rfl, rfl, rfl, rfl, rfl, rfl⟩

theorem validateCharacterRead_eq_none (d : CharacterDump) :
    validateCharacterRead d = none ↔
      d.name = none ∨ d.role = none ∨ d.ability = none := by
  rcases hn : d.name with _ | nm <;>
    rcases hr : d.role with _ | rl <;>
    rcases ha : d.ability with _ | ab <;>
    simp [validateCharacterRead, hn, hr, ha]

theorem validateAnimeRead_fields (d : AnimeDump) (r : AnimeRead)
    (h : validateAnimeRead d = some r) :
    r.id = d.id ∧ r.rating = d.rating ∧ r.created_at = d.created_at ∧
    r.updated_at = d.updated_at ∧ d.title = some r.title ∧
    d.genre = some r.genre ∧ d.seasons = some r.seasons ∧
    d.status = some r.status ∧ d.streaming = some r.streaming ∧
    d.characters = some r.characters := by
  rcases ht : d.title with _ | t <;>
    rcases hge : d.genre with _ | ge <;>
    rcases hse : d.seasons with _ | se <;>
    rcases hst : d.status with _ | st <;>
    rcases hsr : d.streaming with _ | sr <;>
    rcases hc : d.characters with _ | cs <;>
    simp [validateAnimeRead, ht, hge, hse, hst, hsr, hc] at h
  subst h
  exact ⟨rfl, rfl, rfl, rfl, rfl, rfl, rfl, rfl, rfl, rfl⟩

theorem validateAnimeRead_eq_none (d : AnimeDump) :
    validateAnimeRead d = none ↔
      d.title = none ∨ d.genre = none ∨ d.seasons = none ∨
      d.status = none ∨ d.streaming = none ∨ d.characters = none := by
  rcases ht : d.title with _ | t <;>
    rcases hge : d.genre with _ | ge <;>
    rcases hse : d.seasons with _ | se <;>
    rcases hst : d.status with _ | st <;>
    rcases hsr : d.streaming with _ | sr <;>
    rcases hc : d.characters with _ | cs <;>
    simp [validateAnimeRead, ht, hge, hse, hst, hsr, hc]

/-! ### Claim C1: partial update overwrites exactly the supplied fields -/

/-- C1 counterexample: the body `{"name": null}` has `name` explicitly
present, yet it does not overwrite the field: `name` is `Optional[str]` on
`CharacterUpdate`, so the body validates and survives `exclude_unset`, the
merge puts null into the dump, and the `CharacterRead(**stored)`
revalidation raises — the request errors (500) and the store is unchanged,
so the claimed merge does not hold for every partial-update body. -/
theorem update_character_null_name_500 :
    update_character
      [("a", (⟨"a", "Naruto", "Protagonist", none, "Male", "Chakra", 1, 2⟩ : CharacterRead))]
      "a" ⟨some none, none, none, none, none⟩ =
      ([("a", (⟨"a", "Naruto", "Protagonist", none, "Male", "Chakra", 1, 2⟩ : CharacterRead))],
       Except.error ⟨500, "Internal Server Error"⟩) := rfl

/-- C1 amended: for every character id present in the store and every
partial-update body, when revalidation of the merged record succeeds the
update overwrites exactly the fields explicitly present in the body,
preserves every other stored field (`id` and `created_at` included)
verbatim, and does not refresh `updated_at` (post-update `updated_at`
equals pre-update); when revalidation fails the request errors (500) and
the store is left unchanged — and revalidation fails exactly for the
bodies that set a required field (`name`, `role`, `ability`) to an
explicit null. -/
theorem update_character_frame (db : CharStore) (character_id : String)
    (u : CharacterUpdate) (stored : CharacterRead)
    (h : dictGet db character_id = some stored) :
    (∀ record, validateCharacterRead (mergeCharacter stored u) = some record →
      update_character db character_id u =
        (dictSet db character_id record, Except.ok (200, record)) ∧
      record.id = stored.id ∧
      record.created_at = stored.created_at ∧
      record.updated_at = stored.updated_at ∧
      some record.name = u.name.getD (some stored.name) ∧
      some record.role = u.role.getD (some stored.role) ∧
      record.«alias» = u.«alias».getD stored.«alias» ∧
      record.gender = u.gender.getD stored.gender ∧
      some record.ability = u.ability.getD (some stored.ability)) ∧
    (validateCharacterRead (mergeCharacter stored u) = none →
      update_character db character_id u =
        (db, Except.error ⟨500, "Internal Server Error"⟩)) ∧
    (validateCharacterRead (mergeCharacter stored u) = none ↔
      u.name = some none ∨ u.role = some none ∨ u.ability = some none) := by
  refine ⟨?_, ?_, ?_⟩
  · intro record hrec
    obtain ⟨h1, h2, h3, h4, h5, h6, h7, h8⟩ :=
      validateCharacterRead_fields (mergeCharacter stored u) record hrec
    exact ⟨by simp [update_character, h, hrec], h1, h4, h5, h6.symm, h7.symm,
      h2, h3, h8.symm⟩
  · intro hv
    simp [update_character, h, hv]
  · rw [validateCharacterRead_eq_none]
    simp [mergeCharacter, getD_some_eq_none]

theorem update_character_frame_witness :
    dictGet [("a", (⟨"a", "Naruto", "Protagonist", none, "Male", "Chakra", 1, 2⟩ : CharacterRead))] "a" =
      some ⟨"a", "Naruto", "Protagonist", none, "Male", "Chakra", 1, 2⟩ ∧
    validateCharacterRead (mergeCharacter
        ⟨"a", "Naruto", "Protagonist", none, "Male", "Chakra", 1, 2⟩
        ⟨some (some "Sasuke"), none, none, none, none⟩) =
      some ⟨"a", "Sasuke", "Protagonist", none, "Male", "Chakra", 1, 2⟩ ∧
    update_character
        [("a", (⟨"a", "Naruto", "Protagonist", none, "Male", "Chakra", 1, 2⟩ : CharacterRead))]
        "a" ⟨some (some "Sasuke"), none, none, none, none⟩ =
      ([("a", (⟨"a", "Sasuke", "Protagonist", none, "Male", "Chakra", 1, 2⟩ : CharacterRead))],
       Except.ok (200, ⟨"a", "Sasuke", "Protagonist", none, "Male", "Chakra", 1, 2⟩)) := by
  refine ⟨rfl, rfl, ?_⟩
  exact ((update_character_frame
    [("a", ⟨"a", "Naruto", "Protagonist", none, "Male", "Chakra", 1, 2⟩)] "a"
    ⟨some (some "Sasuke"), none, none, none, none⟩
    ⟨"a", "Naruto", "Protagonist", none, "Male", "Chakra", 1, 2⟩ rfl).1
    ⟨"a", "Sasuke", "Protagonist", none, "Male", "Chakra", 1, 2⟩ rfl).1

/-! ### Claim C5: update with an empty body changes nothing -/

/-- C5: for every character id present in the store, `PATCH` with an empty
body (no field set) leaves every field of the stored record byte-identical
except `updated_at` — and in fact `updated_at` is byte-identical as well,
since the source never refreshes it: the merge changes no dump entry, the
revalidation succeeds, and the returned and re-stored record is exactly
the pre-update record. -/
theorem update_character_empty_body (db : CharStore) (character_id : String)
    (stored : CharacterRead) (h : dictGet db character_id = some stored) :
    update_character db character_id ⟨none, none, none, none, none⟩ =
      (dictSet db character_id stored, Except.ok (200, stored)) ∧
    dictGet (update_character db character_id ⟨none, none, none, none, none⟩).1
      character_id = some stored := by
  have hv : validateCharacterRead
      (mergeCharacter stored ⟨none, none, none, none, none⟩) = some stored := rfl
  refine ⟨?_, ?_⟩
  · simp [update_character, h, hv]
  · simp [update_character, h, hv, dictGet_dictSet_self]

theorem update_character_empty_body_witness :
    dictGet [("b", (⟨"b", "Levi", "Supporting", some "Captain", "Male", "ODM", 7, 9⟩ : CharacterRead))] "b" =
      some ⟨"b", "Levi", "Supporting", some "Captain", "Male", "ODM", 7, 9⟩ ∧
    update_character
        [("b", (⟨"b", "Levi", "Supporting", some "Captain", "Male", "ODM", 7, 9⟩ : CharacterRead))]
        "b" ⟨none, none, none, none, none⟩ =
      ([("b", (⟨"b", "Levi", "Supporting", some "Captain", "Male", "ODM", 7, 9⟩ : CharacterRead))],
       Except.ok (200, ⟨"b", "Levi", "Supporting", some "Captain", "Male", "ODM", 7, 9⟩)) := by
  refine ⟨rfl, ?_⟩
  exact (update_character_empty_body
    [("b", ⟨"b", "Levi", "Supporting", some "Captain", "Male", "ODM", 7, 9⟩)] "b"
    ⟨"b", "Levi", "Supporting", some "Captain", "Male", "ODM", 7, 9⟩ rfl).1

/-! ### Claim C2: character create conflicts on a duplicate id -/

/-- C2: `POST /characters` with an id already in the store fails with the
Conflict error (HTTP 400) and leaves the store completely unchanged; with
an absent id it succeeds (201) and inserts the record. -/
theorem create_character_conflict (db : CharStore) (c : CharacterCreate)
    (now1 now2 : Nat) :
    (dictMem db c.id = true →
      create_character db c now1 now2 =
        (db, Except.error ⟨400, "Character with this ID already exists"⟩)) ∧
    (dictMem db c.id = false →
      create_character db c now1 now2 =
        (dictSet db c.id (mkCharacterRead c now1 now2),
         Except.ok (201, mkCharacterRead c now1 now2)) ∧
      dictGet (create_character db c now1 now2).1 c.id =
        some (mkCharacterRead c now1 now2)) := by
  constructor
  · intro h
    simp [create_character, h]
  · intro h
    refine ⟨by simp [create_character, h], ?_⟩
    simp [create_character, h, dictGet_dictSet_self]

theorem create_character_conflict_witness :
    (dictMem [("c", (⟨"c", "Eren", "Protagonist", some "", "Male", "Titan", 3, 3⟩ : CharacterRead))] "c" = true ∧
     create_character
        [("c", (⟨"c", "Eren", "Protagonist", some "", "Male", "Titan", 3, 3⟩ : CharacterRead))]
        ⟨"c", "Mikasa", "Protagonist", none, "Female", "Combat"⟩ 5 5 =
      ([("c", (⟨"c", "Eren", "Protagonist", some "", "Male", "Titan", 3, 3⟩ : CharacterRead))],
       Except.error ⟨400, "Character with this ID already exists"⟩)) ∧
    (dictMem ([] : CharStore) "d" = false ∧
     create_character ([] : CharStore)
        ⟨"d", "Armin", "Supporting", none, "Male", "Strategy"⟩ 6 7 =
      ([("d", (⟨"d", "Armin", "Supporting", none, "Male", "Strategy", 6, 7⟩ : CharacterRead))],
       Except.ok (201, ⟨"d", "Armin", "Supporting", none, "Male", "Strategy", 6, 7⟩))) := by
  constructor
  · exact ⟨rfl,
      (create_character_conflict
        [("c", ⟨"c", "Eren", "Protagonist", some "", "Male", "Titan", 3, 3⟩)]
        ⟨"c", "Mikasa", "Protagonist", none, "Female", "Combat"⟩ 5 5).1 rfl⟩
  · exact ⟨rfl,
      ((create_character_conflict ([] : CharStore)
        ⟨"d", "Armin", "Supporting", none, "Male", "Strategy"⟩ 6 7).2 rfl).1⟩

/-! ### Claim C9: character create timestamps -/

/-- C9 counterexample: `created_at` and `updated_at` come from two separate
`datetime.utcnow` default-factory readings taken during validation; when
the two readings differ (here 5 and 6) the create succeeds and the
returned record has `created_at ≠ updated_at` — the claimed equality is
not guaranteed by the program. -/
theorem create_character_two_clock_readings :
    create_character ([] : CharStore)
        ⟨"e", "Eren Yeager", "Protagonist", some "", "Male", "Attack Titan Power"⟩ 5 6 =
      ([("e", (⟨"e", "Eren Yeager", "Protagonist", some "", "Male", "Attack Titan Power", 5, 6⟩ : CharacterRead))],
       Except.ok (201, ⟨"e", "Eren Yeager", "Protagonist", some "", "Male", "Attack Titan Power", 5, 6⟩)) ∧
    (⟨"e", "Eren Yeager", "Protagonist", some "", "Male", "Attack Titan Power", 5, 6⟩ : CharacterRead).created_at ≠
      (⟨"e", "Eren Yeager", "Protagonist", some "", "Male", "Attack Titan Power", 5, 6⟩ : CharacterRead).updated_at :=
  ⟨rfl, by decide⟩

/-- C9 amended: on success `POST /characters` stamps `created_at` with the
first `utcnow` reading taken during validation and `updated_at` with the
second, inserts the record, and returns the full record (all payload
fields plus both server timestamps); `created_at = updated_at` holds
exactly when the two clock readings coincide — the code itself does not
force them to be equal. -/
theorem create_character_stamps (db : CharStore) (c : CharacterCreate)
    (now1 now2 : Nat) (h : dictMem db c.id = false) :
    create_character db c now1 now2 =
      (dictSet db c.id (mkCharacterRead c now1 now2),
       Except.ok (201, mkCharacterRead c now1 now2)) ∧
    dictGet (create_character db c now1 now2).1 c.id =
      some (mkCharacterRead c now1 now2) ∧
    (mkCharacterRead c now1 now2).created_at = now1 ∧
    (mkCharacterRead c now1 now2).updated_at = now2 ∧
    ((mkCharacterRead c now1 now2).created_at =
        (mkCharacterRead c now1 now2).updated_at ↔ now1 = now2) ∧
    (mkCharacterRead c now1 now2).id = c.id ∧
    (mkCharacterRead c now1 now2).name = c.name ∧
    (mkCharacterRead c now1 now2).role = c.role ∧
    (mkCharacterRead c now1 now2).«alias» = c.«alias» ∧
    (mkCharacterRead c now1 now2).gender = c.gender ∧
    (mkCharacterRead c now1 now2).ability = c.ability := by
  refine ⟨by simp [create_character, h], ?_, rfl, rfl, Iff.rfl, rfl, rfl, rfl,
    rfl, rfl, rfl⟩
  simp [create_character, h, dictGet_dictSet_self]

theorem create_character_stamps_witness :
    dictMem ([] : CharStore) "e" = false ∧
    create_character ([] : CharStore)
        ⟨"e", "Eren Yeager", "Protagonist", some "", "Male", "Attack Titan Power"⟩ 11 11 =
      ([("e", (⟨"e", "Eren Yeager", "Protagonist", some "", "Male", "Attack Titan Power", 11, 11⟩ : CharacterRead))],
       Except.ok (201, ⟨"e", "Eren Yeager", "Protagonist", some "", "Male", "Attack Titan Power", 11, 11⟩)) := by
  refine ⟨rfl, ?_⟩
  exact (create_character_stamps ([] : CharStore)
    ⟨"e", "Eren Yeager", "Protagonist", some "", "Male", "Attack Titan Power"⟩
    11 11 rfl).1

/-! ### Claim C6: anime create never conflicts -/

/-- C6: `POST /animes` performs no duplicate-id check: for every prior
store state it succeeds with status 201 and stores the new record under
the freshly minted id (in contrast to the character create, which checks
for collisions). -/
theorem create_anime_no_conflict (db : AnimeStore) (a : AnimeCreate)
    (freshId : String) (now1 now2 : Nat) :
    create_anime db a freshId now1 now2 =
      (dictSet db freshId (mkAnimeRead a freshId now1 now2),
       Except.ok (201, mkAnimeRead a freshId now1 now2)) ∧
    dictGet (create_anime db a freshId now1 now2).1 freshId =
      some (mkAnimeRead a freshId now1 now2) := by
  refine ⟨rfl, ?_⟩
  have hid : (mkAnimeRead a freshId now1 now2).id = freshId := rfl
  simp [create_anime, hid, dictGet_dictSet_self]

/-! ### Claim C10: anime update with `characters` -/

/-- C10 counterexample: a body including `characters` with a list but also
setting the required `title` to an explicit null validates as a request
(`Optional[str]` on `AnimeUpdate`), yet `AnimeRead(**stored)` fails
revalidation: the request errors (500) and the stored `characters` list is
NOT replaced — so the claim does not hold for every body that includes
`characters`. -/
theorem update_anime_null_title_500 :
    update_anime
      [("x", (⟨"x", "Naruto", "Action", "9", none, "Ongoing", "Netflix",
        [⟨"k", "Naruto Uzumaki", "Protagonist", none, "Male", "Chakra"⟩], 1, 1⟩ : AnimeRead))]
      "x"
      ⟨some none, none, none, none, none, none,
        some (some [⟨"m", "Sasuke Uchiha", "Rival", none, "Male", "Sharingan"⟩])⟩ =
      ([("x", (⟨"x", "Naruto", "Action", "9", none, "Ongoing", "Netflix",
        [⟨"k", "Naruto Uzumaki", "Protagonist", none, "Male", "Chakra"⟩], 1, 1⟩ : AnimeRead))],
       Except.error ⟨500, "Internal Server Error"⟩) := rfl

/-- C10 amended: for every anime id present in the store and every update
body that includes `characters` with a list `cs`, when revalidation of the
merged record succeeds the entire embedded list is replaced by exactly
`cs` (no merge with or retention of the previously stored characters);
when revalidation fails the request errors (500) and the store is left
unchanged — and, for such a body, revalidation fails exactly when some
required field (`title`, `genre`, `seasons`, `status`, `streaming`) is set
to an explicit null. -/
theorem update_anime_replaces_characters (db : AnimeStore) (anime_id : String)
    (u : AnimeUpdate) (stored : AnimeRead) (cs : List CharacterBase)
    (h : dictGet db anime_id = some stored)
    (hcs : u.characters = some (some cs)) :
    (∀ record, validateAnimeRead (mergeAnime stored u) = some record →
      update_anime db anime_id u =
        (dictSet db anime_id record, Except.ok (200, record)) ∧
      record.characters = cs ∧
      dictGet (update_anime db anime_id u).1 anime_id = some record) ∧
    (validateAnimeRead (mergeAnime stored u) = none →
      update_anime db anime_id u =
        (db, Except.error ⟨500, "Internal Server Error"⟩)) ∧
    (validateAnimeRead (mergeAnime stored u) = none ↔
      u.title = some none ∨ u.genre = some none ∨ u.seasons = some none ∨
      u.status = some none ∨ u.streaming = some none) := by
  refine ⟨?_, ?_, ?_⟩
  · intro record hrec
    obtain ⟨h1, h2, h3, h4, h5, h6, h7, h8, h9, h10⟩ :=
      validateAnimeRead_fields (mergeAnime stored u) record hrec
    have hchar : record.characters = cs := by
      have hmc : (mergeAnime stored u).characters = some cs := by
        simp [mergeAnime, hcs]
      rw [hmc] at h10
      exact (Option.some.inj h10).symm
    exact ⟨by simp [update_anime, h, hrec], hchar,
      by simp [update_anime, h, hrec, dictGet_dictSet_self]⟩
  · intro hv
    simp [update_anime, h, hv]
  · rw [validateAnimeRead_eq_none]
    simp [mergeAnime, getD_some_eq_none, hcs]

theorem update_anime_replaces_characters_witness :
    dictGet [("x", (⟨"x", "Naruto", "Action", "9", none, "Ongoing", "Netflix",
        [⟨"k", "Naruto Uzumaki", "Protagonist", none, "Male", "Chakra"⟩], 1, 1⟩ : AnimeRead))] "x" =
      some ⟨"x", "Naruto", "Action", "9", none, "Ongoing", "Netflix",
        [⟨"k", "Naruto Uzumaki", "Protagonist", none, "Male", "Chakra"⟩], 1, 1⟩ ∧
    (⟨none, none, none, none, none, none,
        some (some [⟨"m", "Sasuke Uchiha", "Rival", none, "Male", "Sharingan"⟩])⟩ : AnimeUpdate).characters =
      some (some [⟨"m", "Sasuke Uchiha", "Rival", none, "Male", "Sharingan"⟩]) ∧
    validateAnimeRead (mergeAnime
        ⟨"x", "Naruto", "Action", "9", none, "Ongoing", "Netflix",
          [⟨"k", "Naruto Uzumaki", "Protagonist", none, "Male", "Chakra"⟩], 1, 1⟩
        ⟨none, none, none, none, none, none,
          some (some [⟨"m", "Sasuke Uchiha", "Rival", none, "Male", "Sharingan"⟩])⟩) =
      some ⟨"x", "Naruto", "Action", "9", none, "Ongoing", "Netflix",
        [⟨"m", "Sasuke Uchiha", "Rival", none, "Male", "Sharingan"⟩], 1, 1⟩ ∧
    update_anime
        [("x", (⟨"x", "Naruto", "Action", "9", none, "Ongoing", "Netflix",
          [⟨"k", "Naruto Uzumaki", "Protagonist", none, "Male", "Chakra"⟩], 1, 1⟩ : AnimeRead))]
        "x"
        ⟨none, none, none, none, none, none,
          some (some [⟨"m", "Sasuke Uchiha", "Rival", none, "Male", "Sharingan"⟩])⟩ =
      ([("x", (⟨"x", "Naruto", "Action", "9", none, "Ongoing", "Netflix",
          [⟨"m", "Sasuke Uchiha", "Rival", none, "Male", "Sharingan"⟩], 1, 1⟩ : AnimeRead))],
       Except.ok (200, ⟨"x", "Naruto", "Action", "9", none, "Ongoing", "Netflix",
          [⟨"m", "Sasuke Uchiha", "Rival", none, "Male", "Sharingan"⟩], 1, 1⟩)) := by
  refine ⟨rfl, rfl, rfl, ?_⟩
  exact ((update_anime_replaces_characters
    [("x", ⟨"x", "Naruto", "Action", "9", none, "Ongoing", "Netflix",
      [⟨"k", "Naruto Uzumaki", "Protagonist", none, "Male", "Chakra"⟩], 1, 1⟩)]
    "x"
    ⟨none, none, none, none, none, none,
      some (some [⟨"m", "Sasuke Uchiha", "Rival", none, "Male", "Sharingan"⟩])⟩
    ⟨"x", "Naruto", "Action", "9", none, "Ongoing", "Netflix",
      [⟨"k", "Naruto Uzumaki", "Protagonist", none, "Male", "Chakra"⟩], 1, 1⟩
    [⟨"m", "Sasuke Uchiha", "Rival", none, "Male", "Sharingan"⟩]
    rfl rfl).1
    ⟨"x", "Naruto", "Action", "9", none, "Ongoing", "Netflix",
      [⟨"m", "Sasuke Uchiha", "Rival", none, "Male", "Sharingan"⟩], 1, 1⟩ rfl).1

/-! ### Claim C4: character list filtering is an exact-match conjunction -/

/-- C4: `GET /characters` returns exactly the stored records matching all
supplied filters by exact equality; `List({name: X, role: Y})` equals
filtering the store by name and then filtering that subset by role; absent
filters impose no constraint; a filter set matching zero records yields an
empty list, not an error. -/
theorem list_characters_conjunction (db : CharStore)
    (name role «alias» gender ability : Option String) :
    list_characters db name role «alias» gender ability =
      (dictValues db).filter (matchesFilters name role «alias» gender ability) ∧
    (∀ X Y : String, list_characters db (some X) (some Y) none none none =
      ((dictValues db).filter (fun a => a.name == X)).filter
        (fun a => a.role == Y)) ∧
    list_characters db none none none none none = dictValues db ∧
    ((dictValues db).all
        (fun a => !(matchesFilters name role «alias» gender ability a)) = true →
      list_characters db name role «alias» gender ability = []) := by
  have main : ∀ n r al g ab, list_characters db n r al g ab =
      (dictValues db).filter (matchesFilters n r al g ab) := by
    intro n r al g ab
    show list_characters db n r al g ab =
      (dictValues db).filter (fun a => matchesFilters n r al g ab a)
    cases n <;> cases r <;> cases al <;> cases g <;> cases ab <;>
      simp [list_characters, matchesFilters, filter_and_filter,
        Bool.and_assoc, Bool.and_comm, Bool.and_left_comm]
  refine ⟨main name role «alias» gender ability, ?_, ?_, ?_⟩
  · intro X Y
    have hpred : matchesFilters (some X) (some Y) none none none =
        fun a => a.name == X && a.role == Y := by
      funext a
      simp [matchesFilters]
    rw [main (some X) (some Y) none none none, hpred, ← filter_and_filter]
  · have hpred : matchesFilters none none none none none =
        fun _ => true := by
      funext a
      simp [matchesFilters]
    rw [main none none none none none, hpred]
    exact List.filter_true _
  · intro h
    rw [main name role «alias» gender ability, List.filter_eq_nil_iff]
    rw [List.all_eq_true] at h
    intro a ha
    simpa using h a ha

theorem list_characters_conjunction_witness :
    (dictValues [("a", (⟨"a", "Naruto", "Protagonist", none, "Male", "Chakra", 1, 1⟩ : CharacterRead))]).all
        (fun a => !(matchesFilters (some "Zoro") none none none none a)) = true ∧
    list_characters
        [("a", (⟨"a", "Naruto", "Protagonist", none, "Male", "Chakra", 1, 1⟩ : CharacterRead))]
        (some "Zoro") none none none none = [] := by
  refine ⟨by decide, ?_⟩
  exact (list_characters_conjunction
    [("a", ⟨"a", "Naruto", "Protagonist", none, "Male", "Chakra", 1, 1⟩)]
    (some "Zoro") none none none none).2.2.2 (by decide)

/-! ### Claim C3: the anime gender filter and the `addresses` defect -/

/-- C3 counterexample: a request supplying a `gender` filter does NOT
always raise: with an empty anime store the comprehension iterates zero
times, never evaluates `p.addresses`, and the request returns an empty
list instead of raising. -/
theorem list_animes_gender_empty_ok :
    list_animes ([] : AnimeStore) none none none none none none none
      (some "Male") = Except.ok [] := rfl

/-- C3 amended: a request supplying a `gender` filter raises the runtime
attribute error (from dereferencing the nonexistent `addresses` field)
exactly when at least one anime survives the preceding filters; when none
survives, the comprehension never evaluates `addresses` and the request
returns an empty list. -/
theorem list_animes_gender_attribute_error (db : AnimeStore)
    (title genre seasons rating status streaming role : Option String)
    (g : String) :
    list_animes db title genre seasons rating status streaming role (some g) =
      (if (listAnimesBase db title genre seasons rating status streaming
            role).isEmpty
       then Except.ok []
       else Except.error PyError.attributeError) := by
  unfold list_animes
  cases h : listAnimesBase db title genre seasons rating status streaming role with
  | nil => simp [filterME]
  | cons x xs => simp [filterME, AnimeRead.addresses]

/-! ### Claim C7: an anime's `characters` list is a value snapshot -/

/-- C7: the `characters` list embedded in an anime is a value snapshot:
every Character-store operation (create, list, get, update) leaves the
anime store — and hence every stored anime's `characters` list — untouched;
`GET /animes/{id}` returns the stored record verbatim; an anime update
that passes revalidation carries exactly the supplied replacement list
when the body includes one and the stored list unchanged otherwise
(`u.characters.getD (some stored.characters)`); and an anime update whose
revalidation fails (a null-carrying body) errors before any mutation,
leaving the store unchanged. -/
theorem anime_characters_snapshot :
    (∀ (s : ServerState) (c : CharacterCreate) (now1 now2 : Nat),
      (step s (Op.createChar c now1 now2)).animes = s.animes) ∧
    (∀ (s : ServerState) (name role «alias» gender ability : Option String),
      (step s (Op.listChars name role «alias» gender ability)).animes =
        s.animes) ∧
    (∀ (s : ServerState) (i : String),
      (step s (Op.getChar i)).animes = s.animes) ∧
    (∀ (s : ServerState) (i : String) (u : CharacterUpdate),
      (step s (Op.updateChar i u)).animes = s.animes) ∧
    (∀ (db : AnimeStore) (i : String),
      get_anime db i = (match dictGet db i with
        | none => Except.error ⟨404, "Anime not found"⟩
        | some r => Except.ok (200, r))) ∧
    (∀ (stored : AnimeRead) (u : AnimeUpdate) (record : AnimeRead),
      validateAnimeRead (mergeAnime stored u) = some record →
      some record.characters = u.characters.getD (some stored.characters)) ∧
    (∀ (db : AnimeStore) (i : String) (u : AnimeUpdate) (stored : AnimeRead),
      dictGet db i = some stored →
      validateAnimeRead (mergeAnime stored u) = none →
      update_anime db i u = (db, Except.error ⟨500, "Internal Server Error"⟩)) := by
  refine ⟨fun _ _ _ _ => rfl, fun _ _ _ _ _ _ => rfl, fun _ _ => rfl,
    fun _ _ _ => rfl, fun _ _ => rfl, ?_, ?_⟩
  · intro stored u record hrec
    obtain ⟨_, _, _, _, _, _, _, _, _, h10⟩ :=
      validateAnimeRead_fields (mergeAnime stored u) record hrec
    exact h10.symm
  · intro db i u stored h hv
    simp [update_anime, h, hv]

theorem anime_characters_snapshot_witness :
    validateAnimeRead (mergeAnime
      (⟨"y", "One Piece", "Adventure", "20", none, "Ongoing", "Netflix", [], 1, 1⟩ : AnimeRead)
      ⟨none, none, none, none, none, none, none⟩) =
      some ⟨"y", "One Piece", "Adventure", "20", none, "Ongoing", "Netflix", [], 1, 1⟩ ∧
    some (⟨"y", "One Piece", "Adventure", "20", none, "Ongoing", "Netflix", [], 1, 1⟩ : AnimeRead).characters =
      ((⟨none, none, none, none, none, none, none⟩ : AnimeUpdate).characters).getD
        (some (⟨"y", "One Piece", "Adventure", "20", none, "Ongoing", "Netflix", [], 1, 1⟩ : AnimeRead).characters) ∧
    dictGet [("y", (⟨"y", "One Piece", "Adventure", "20", none, "Ongoing", "Netflix", [], 1, 1⟩ : AnimeRead))] "y" =
      some ⟨"y", "One Piece", "Adventure", "20", none, "Ongoing", "Netflix", [], 1, 1⟩ ∧
    validateAnimeRead (mergeAnime
      (⟨"y", "One Piece", "Adventure", "20", none, "Ongoing", "Netflix", [], 1, 1⟩ : AnimeRead)
      ⟨some none, none, none, none, none, none, none⟩) = none ∧
    update_anime
      [("y", (⟨"y", "One Piece", "Adventure", "20", none, "Ongoing", "Netflix", [], 1, 1⟩ : AnimeRead))] "y"
      ⟨some none, none, none, none, none, none, none⟩ =
      ([("y", (⟨"y", "One Piece", "Adventure", "20", none, "Ongoing", "Netflix", [], 1, 1⟩ : AnimeRead))],
       Except.error ⟨500, "Internal Server Error"⟩) := by
  refine ⟨rfl, ?_, rfl, rfl, ?_⟩
  · exact anime_characters_snapshot.2.2.2.2.2.1
      ⟨"y", "One Piece", "Adventure", "20", none, "Ongoing", "Netflix", [], 1, 1⟩
      ⟨none, none, none, none, none, none, none⟩
      ⟨"y", "One Piece", "Adventure", "20", none, "Ongoing", "Netflix", [], 1, 1⟩ rfl
  · exact anime_characters_snapshot.2.2.2.2.2.2
      [("y", ⟨"y", "One Piece", "Adventure", "20", none, "Ongoing", "Netflix", [], 1, 1⟩)] "y"
      ⟨some none, none, none, none, none, none, none⟩
      ⟨"y", "One Piece", "Adventure", "20", none, "Ongoing", "Netflix", [], 1, 1⟩ rfl rfl

/-! ### Claim C8: identifier integrity in every reachable state -/

theorem invariantB_step (s : ServerState) (op : Op)
    (h : invariantB s = true) : invariantB (step s op) = true := by
  simp only [invariantB, Bool.and_eq_true] at h
  obtain ⟨⟨⟨hc1, hc2⟩, ha1⟩, ha2⟩ := h
  cases op with
  | createChar c now1 now2 =>
      by_cases hm : dictMem s.characters c.id
      · simp only [step, create_character, hm, if_true, invariantB,
          Bool.and_eq_true]
        exact ⟨⟨⟨hc1, hc2⟩, ha1⟩, ha2⟩
      · simp only [step, create_character, hm, Bool.false_eq_true, if_false,
          invariantB, Bool.and_eq_true]
        refine ⟨⟨⟨?_, keysUnique_dictSet _ _ _ hc2⟩, ha1⟩, ha2⟩
        exact all_dictSet _ _ _ hc1 (by simp [mkCharacterRead])
  | listChars name role «alias» gender ability =>
      simp only [step, invariantB, Bool.and_eq_true]
      exact ⟨⟨⟨hc1, hc2⟩, ha1⟩, ha2⟩
  | getChar i =>
      simp only [step, invariantB, Bool.and_eq_true]
      exact ⟨⟨⟨hc1, hc2⟩, ha1⟩, ha2⟩
  | updateChar i u =>
      cases hg : dictGet s.characters i with
      | none =>
          simp only [step, update_character, hg, invariantB, Bool.and_eq_true]
          exact ⟨⟨⟨hc1, hc2⟩, ha1⟩, ha2⟩
      | some stored =>
          have hid : stored.id = i := by
            rw [List.all_eq_true] at hc1
            simpa using hc1 (i, stored) (mem_of_dictGet _ _ _ hg)
          cases hv : validateCharacterRead (mergeCharacter stored u) with
          | none =>
              simp only [step, update_character, hg, hv, invariantB,
                Bool.and_eq_true]
              exact ⟨⟨⟨hc1, hc2⟩, ha1⟩, ha2⟩
          | some record =>
              have hrid : record.id = stored.id :=
                (validateCharacterRead_fields _ _ hv).1
              simp only [step, update_character, hg, hv, invariantB,
                Bool.and_eq_true]
              refine ⟨⟨⟨?_, keysUnique_dictSet _ _ _ hc2⟩, ha1⟩, ha2⟩
              refine all_dictSet _ _ _ hc1 ?_
              simp [hrid, hid]
  | createAnime a fid now1 now2 =>
      simp only [step, create_anime, invariantB, Bool.and_eq_true]
      refine ⟨⟨⟨hc1, hc2⟩, ?_⟩, keysUnique_dictSet _ _ _ ha2⟩
      exact all_dictSet _ _ _ ha1 (by simp [mkAnimeRead])
  | listAnimes t g se ra st str ro ge =>
      simp only [step, invariantB, Bool.and_eq_true]
      exact ⟨⟨⟨hc1, hc2⟩, ha1⟩, ha2⟩
  | getAnime i =>
      simp only [step, invariantB, Bool.and_eq_true]
      exact ⟨⟨⟨hc1, hc2⟩, ha1⟩, ha2⟩
  | updateAnime i u =>
      cases hg : dictGet s.animes i with
      | none =>
          simp only [step, update_anime, hg, invariantB, Bool.and_eq_true]
          exact ⟨⟨⟨hc1, hc2⟩, ha1⟩, ha2⟩
      | some stored =>
          have hid : stored.id = i := by
            rw [List.all_eq_true] at ha1
            simpa using ha1 (i, stored) (mem_of_dictGet _ _ _ hg)
          cases hv : validateAnimeRead (mergeAnime stored u) with
          | none =>
              simp only [step, update_anime, hg, hv, invariantB,
                Bool.and_eq_true]
              exact ⟨⟨⟨hc1, hc2⟩, ha1⟩, ha2⟩
          | some record =>
              have hrid : record.id = stored.id :=
                (validateAnimeRead_fields _ _ hv).1
              simp only [step, update_anime, hg, hv, invariantB,
                Bool.and_eq_true]
              refine ⟨⟨⟨hc1, hc2⟩, ?_⟩, keysUnique_dictSet _ _ _ ha2⟩
              refine all_dictSet _ _ _ ha1 ?_
              simp [hrid, hid]

theorem idKept_refl (idOf : α → String) (o : Option α) :
    idKept idOf o o = true := by
  cases o <;> simp [idKept]

theorem idKeptChar_step (s : ServerState) (op : Op) (k : String) :
    idKept CharacterRead.id (dictGet s.characters k)
      (dictGet (step s op).characters k) = true := by
  cases op with
  | createChar c now1 now2 =>
      by_cases hm : dictMem s.characters c.id
      · simp only [step, create_character, hm, if_true]
        exact idKept_refl _ _
      · simp only [step, create_character, hm, Bool.false_eq_true, if_false]
        by_cases hk : k = c.id
        · subst hk
          rw [dictGet_eq_none_of_not_mem _ _ (by simpa using hm)]
          simp [idKept]
        · rw [dictGet_dictSet_ne _ _ _ _ hk]
          exact idKept_refl _ _
  | listChars name role «alias» gender ability => exact idKept_refl _ _
  | getChar i => exact idKept_refl _ _
  | updateChar i u =>
      cases hg : dictGet s.characters i with
      | none =>
          simp only [step, update_character, hg]
          exact idKept_refl _ _
      | some stored =>
          cases hv : validateCharacterRead (mergeCharacter stored u) with
          | none =>
              simp only [step, update_character, hg, hv]
              exact idKept_refl _ _
          | some record =>
              simp only [step, update_character, hg, hv]
              by_cases hk : k = i
              · subst hk
                rw [hg, dictGet_dictSet_self]
                have hrid : record.id = stored.id :=
                  (validateCharacterRead_fields _ _ hv).1
                simp [idKept, hrid]
              · rw [dictGet_dictSet_ne _ _ _ _ hk]
                exact idKept_refl _ _
  | createAnime a fid now1 now2 => exact idKept_refl _ _
  | listAnimes t g se ra st str ro ge => exact idKept_refl _ _
  | getAnime i => exact idKept_refl _ _
  | updateAnime i u => exact idKept_refl _ _

theorem idKeptAnime_step (s : ServerState) (op : Op) (k : String)
    (hinv : invariantB s = true) :
    idKept AnimeRead.id (dictGet s.animes k)
      (dictGet (step s op).animes k) = true := by
  simp only [invariantB, Bool.and_eq_true] at hinv
  obtain ⟨⟨⟨hc1, hc2⟩, ha1⟩, ha2⟩ := hinv
  cases op with
  | createChar c now1 now2 => exact idKept_refl _ _
  | listChars name role «alias» gender ability => exact idKept_refl _ _
  | getChar i => exact idKept_refl _ _
  | updateChar i u => exact idKept_refl _ _
  | createAnime a fid now1 now2 =>
      have hstore : (step s (Op.createAnime a fid now1 now2)).animes =
          dictSet s.animes fid (mkAnimeRead a fid now1 now2) := rfl
      rw [hstore]
      by_cases hk : k = fid
      · rw [hk, dictGet_dictSet_self]
        cases hb : dictGet s.animes fid with
        | none => simp [idKept]
        | some r =>
            have hid : r.id = fid := by
              rw [List.all_eq_true] at ha1
              simpa using ha1 (fid, r) (mem_of_dictGet _ _ _ hb)
            have hmk : (mkAnimeRead a fid now1 now2).id = fid := rfl
            simp [idKept, hmk, hid]
      · rw [dictGet_dictSet_ne _ _ _ _ hk]
        exact idKept_refl _ _
  | listAnimes t g se ra st str ro ge => exact idKept_refl _ _
  | getAnime i => exact idKept_refl _ _
  | updateAnime i u =>
      cases hg : dictGet s.animes i with
      | none =>
          simp only [step, update_anime, hg]
          exact idKept_refl _ _
      | some stored =>
          cases hv : validateAnimeRead (mergeAnime stored u) with
          | none =>
              simp only [step, update_anime, hg, hv]
              exact idKept_refl _ _
          | some record =>
              simp only [step, update_anime, hg, hv]
              by_cases hk : k = i
              · subst hk
                rw [hg, dictGet_dictSet_self]
                have hrid : record.id = stored.id :=
                  (validateAnimeRead_fields _ _ hv).1
                simp [idKept, hrid]
              · rw [dictGet_dictSet_ne _ _ _ _ hk]
                exact idKept_refl _ _

theorem invariantB_foldl (l : List Op) (s : ServerState)
    (h : invariantB s = true) : invariantB (l.foldl step s) = true := by
  induction l generalizing s with
  | nil => exact h
  | cons o rest ih => exact ih _ (invariantB_step s o h)

/-- C8: in every server state reachable from the empty stores by any
request sequence, each key of the character (resp. anime) store maps to a
record whose `id` equals that key and no key occurs twice (identifiers are
unique within each store); moreover one further operation of any kind
keeps every existing record present under its key with an unchanged
identifier. -/
theorem store_identity_invariant (ops : List Op) (op : Op) (k : String) :
    invariantB (reach ops) = true ∧
    idKept CharacterRead.id (dictGet (reach ops).characters k)
      (dictGet (step (reach ops) op).characters k) = true ∧
    idKept AnimeRead.id (dictGet (reach ops).animes k)
      (dictGet (step (reach ops) op).animes k) = true :=
  have hinv : invariantB (reach ops) = true :=
    invariantB_foldl ops ⟨[], []⟩ rfl
  ⟨hinv, idKeptChar_step _ op k, idKeptAnime_step _ op k hinv⟩
